import Mathlib

/-!
# Verification of the chroma pixel-framebuffer library

Shallow embedding of `src/renderers.rs`, `src/builder.rs` and `src/lib.rs`.

Modelling conventions:
* Rust `f32` arithmetic is modelled by exact rational arithmetic over `ℚ`.
  Every concrete input used in a counterexample or witness below is chosen so
  that all intermediate `f32` values are exactly representable, where the two
  semantics coincide.
* Rust machine integers are modelled by `ℕ` with explicit `% 2^w` where
  overflow matters (the `u16` multiplication in `builder.rs`).
* A Rust panic (a failed `clamp` assertion, an out-of-bounds index, an
  arithmetic overflow) is the `none` / error branch of a total Lean function.
* `as u32` / `as usize` casts from `f32` follow Rust semantics: round toward
  zero, saturate at the bounds of the target type.
-/

namespace Chroma

/-- Rust `f32::clamp(self, min, max)` (renderers.rs line 211): asserts
`min <= max` (panic, modelled as `none`, otherwise), then
`if self < min { min } else if self > max { max } else { self }`. -/
def clampF (x lo hi : ℚ) : Option ℚ :=
  if lo ≤ hi then some (if x < lo then lo else if hi < x then hi else x) else none

/-- Rust `f32::trunc`: round toward zero. -/
def truncQ (q : ℚ) : ℤ :=
  if 0 ≤ q then ⌊q⌋ else ⌈q⌉

/-- Rust `f32::fract`: `self - self.trunc()`. -/
def fractQ (q : ℚ) : ℚ :=
  q - truncQ q

/-- Rust `as u32` cast of an `f32`: round toward zero, saturating at `0` and
`u32::MAX`. -/
def castU32 (q : ℚ) : ℕ :=
  min (truncQ q).toNat (2 ^ 32 - 1)

/-- Rust `as usize` cast of an `f32` (64-bit target): round toward zero,
saturating at `0` and `usize::MAX`. -/
def castUsize (q : ℚ) : ℕ :=
  min (truncQ q).toNat (2 ^ 64 - 1)

/-- Structure `ScalingMatrix` (renderers.rs lines 198-201): the 4×4 transform is kept as
the 16-element array literal of renderers.rs lines 223-228 (column-major, as
`ultraviolet::Mat4::from` reads it), the clip rectangle as `(x, y, w, h)`. -/
structure ScalingMatrix where
  transform : List ℚ
  clip_rect : ℕ × ℕ × ℕ × ℕ
deriving DecidableEq

/-- The scale factor computed by `ScalingMatrix::new` (renderers.rs lines
208-211): `width_ratio.clamp(1.0, height_ratio).floor()`; `none` models the
panic of `clamp` when `1.0 > height_ratio`. -/
def scaleOf (texture_width texture_height screen_width screen_height : ℚ) : Option ℚ :=
  let width_ratio := screen_width / texture_width
  let height_ratio := screen_height / texture_height
  (clampF width_ratio 1 height_ratio).map (fun c => ((⌊c⌋ : ℤ) : ℚ))

/-- Function `ScalingMatrix::new` (renderers.rs lines 204-244, identical copy in
lib.rs lines 588-628). `none` models the panic of the `clamp` call. -/
def ScalingMatrix.new (texture_width texture_height screen_width screen_height : ℚ) :
    Option ScalingMatrix :=
  (scaleOf texture_width texture_height screen_width screen_height).map fun scale =>
    let scaled_width := scale * texture_width
    let scaled_height := scale * texture_height
    let sw := scaled_width / screen_width
    let sh := scaled_height / screen_height
    let tx := fractQ (screen_width / 2) / screen_width
    let ty := fractQ (screen_height / 2) / screen_height
    let transform : List ℚ :=
      [sw, 0, 0, 0,
       0, sh, 0, 0,
       0, 0, 1, 0,
       tx, ty, 0, 1]
    let cw := min scaled_width screen_width
    let ch := min scaled_height screen_height
    let x := castU32 ((screen_width - cw) / 2)
    let y := castU32 ((screen_height - ch) / 2)
    ⟨transform, (x, y, castU32 cw, castU32 ch)⟩

/-- Enumeration `wgpu::AstcBlock` (the ASTC block footprints named in builder.rs). -/
inductive AstcBlock
  | B4x4 | B5x4 | B5x5 | B6x5 | B6x6 | B8x5 | B8x6 | B8x8
  | B10x5 | B10x6 | B10x8 | B10x10 | B12x10 | B12x12
deriving DecidableEq

/-- Enumeration `wgpu::AstcChannel`. -/
inductive AstcChannel
  | Unorm | UnormSrgb | Hdr
deriving DecidableEq

/-- Enumeration `wgpu::TextureFormat` (the texture-format enumeration matched by
`texture_format_size` in builder.rs lines 189-318). -/
inductive TextureFormat
  | R8Unorm | R8Snorm | R8Uint | R8Sint
  | R16Uint | R16Sint | R16Unorm | R16Snorm | R16Float
  | Rg8Unorm | Rg8Snorm | Rg8Uint | Rg8Sint
  | R32Uint | R32Sint | R32Float
  | Rg16Uint | Rg16Sint | Rg16Unorm | Rg16Snorm | Rg16Float
  | Rgba8Unorm | Rgba8UnormSrgb | Rgba8Snorm | Rgba8Uint | Rgba8Sint
  | Bgra8Unorm | Bgra8UnormSrgb
  | Rgb9e5Ufloat | Rgb10a2Unorm | Rg11b10Float
  | Rg32Uint | Rg32Sint | Rg32Float
  | Rgba16Uint | Rgba16Sint | Rgba16Unorm | Rgba16Snorm | Rgba16Float
  | Rgba32Uint | Rgba32Sint | Rgba32Float
  | Stencil8 | Depth16Unorm | Depth24Plus | Depth24PlusStencil8
  | Depth32Float | Depth32FloatStencil8
  | Bc1RgbaUnorm | Bc1RgbaUnormSrgb | Bc2RgbaUnorm | Bc2RgbaUnormSrgb
  | Bc3RgbaUnorm | Bc3RgbaUnormSrgb | Bc4RUnorm | Bc4RSnorm
  | Bc5RgUnorm | Bc5RgSnorm | Bc6hRgbUfloat | Bc6hRgbFloat
  | Bc7RgbaUnorm | Bc7RgbaUnormSrgb
  | Etc2Rgb8Unorm | Etc2Rgb8UnormSrgb | Etc2Rgb8A1Unorm | Etc2Rgb8A1UnormSrgb
  | Etc2Rgba8Unorm | Etc2Rgba8UnormSrgb
  | EacR11Unorm | EacR11Snorm | EacRg11Unorm | EacRg11Snorm
  | Astc (block : AstcBlock) (channel : AstcChannel)

/-- Function `texture_format_size` (builder.rs lines 189-318): the per-texel byte size
used for the pixel buffer. Every numeric literal below is the exact `f32`
value returned by the corresponding match arm of the source (each is exactly
representable, so the rational value is the float value). The final arm is
the source catch-all `_ => 1.0`. -/
def texture_format_size (texture_format : TextureFormat) : ℚ :=
  match texture_format with
  | .R8Unorm | .R8Snorm | .R8Uint | .R8Sint
  | .Stencil8 => 1
  | .R16Uint | .R16Sint | .R16Float | .R16Unorm | .R16Snorm
  | .Rg8Unorm | .Rg8Snorm | .Rg8Uint | .Rg8Sint
  | .Rgb9e5Ufloat | .Depth16Unorm => 2
  | .R32Uint | .R32Sint | .R32Float
  | .Rg16Uint | .Rg16Sint | .Rg16Float | .Rg16Unorm | .Rg16Snorm
  | .Rgba8Unorm | .Rgba8UnormSrgb | .Rgba8Snorm | .Rgba8Uint | .Rgba8Sint
  | .Bgra8Unorm | .Bgra8UnormSrgb
  | .Rgb10a2Unorm | .Rg11b10Float
  | .Depth32Float | .Depth24Plus | .Depth24PlusStencil8 => 4
  | .Rg32Uint | .Rg32Sint | .Rg32Float
  | .Rgba16Uint | .Rgba16Sint | .Rgba16Float | .Rgba16Unorm | .Rgba16Snorm
  | .Depth32FloatStencil8 => 8
  | .Rgba32Uint | .Rgba32Sint | .Rgba32Float => 16
  | .Bc1RgbaUnorm | .Bc1RgbaUnormSrgb | .Bc4RUnorm | .Bc4RSnorm
  | .Etc2Rgb8Unorm | .Etc2Rgb8UnormSrgb | .Etc2Rgb8A1Unorm | .Etc2Rgb8A1UnormSrgb
  | .EacR11Unorm | .EacR11Snorm => 0.5
  | .Astc .B5x4 _ => 1.25
  | .Astc .B5x5 _ => 1.5625
  | .Astc .B6x5 _ => 1.875
  | .Astc .B6x6 _ => 2.25
  | .Astc .B8x5 _ => 2.5
  | .Astc .B8x6 _ => 3.0
  | .Astc .B8x8 _ => 4.0
  | .Astc .B10x5 _ => 3.125
  | .Astc .B10x6 _ => 3.75
  | .Astc .B10x8 _ => 5.0
  | .Astc .B10x10 _ => 6.25
  | .Astc .B12x10 _ => 7.5
  | .Astc .B12x12 _ => 9.0
  | _ => 1.0

/-- Size of the CPU pixel buffer allocated by `create_backing_texture`
(builder.rs line 184): `((width * height) as f32 * texture_format_size) as usize`
where `width` and `height` are `u16`. The `u16` product `width * height` wraps
modulo `2 ^ 16` (release semantics; a debug build panics on overflow), its cast
to `f32` is exact (the wrapped value is below `2 ^ 24`), and the `f32` product
with the format size is exact (a multiple of `1 / 16` below `2 ^ 24` sixteenths),
so the rational computation below reproduces the float computation exactly.
`build_impl` (builder.rs lines 100-101) allocates the pixel `Vec` with exactly
this length. -/
def pixels_buffer_size (width height : ℕ) (texture_format : TextureFormat) : ℕ :=
  castUsize ((((width * height) % 2 ^ 16 : ℕ) : ℚ) * texture_format_size texture_format)

/-- Constant `SPRITE_COUNT` (lib.rs line 47). -/
def SPRITE_COUNT : ℕ := 5

/-- Constant `SCREEN_WIDTH` (lib.rs line 49). -/
def SCREEN_WIDTH : ℕ := 128

/-- Constant `SCREEN_HEIGHT` (lib.rs line 50). -/
def SCREEN_HEIGHT : ℕ := 112

/-- Structure `Instance` (lib.rs lines 639-642): one tile sprite instance. -/
structure Instance where
  position : ℚ × ℚ
  uv_offset : ℚ × ℚ
deriving DecidableEq

instance : Inhabited Instance := ⟨⟨(0, 0), (0, 0)⟩⟩

/-- Function `Instance::to_raw` (lib.rs lines 645-649): the four floats written into the
instance buffer. -/
def Instance.to_raw (i : Instance) : List ℚ :=
  [i.position.1, i.position.2, i.uv_offset.1, i.uv_offset.2]

/-- Dimensions of `wgpu::SurfaceConfiguration` (the fields of `config` that
`Chroma::resize` would have to change; format and modes are fixed at
construction and irrelevant to the claims). -/
structure SurfaceConfiguration where
  width : ℕ
  height : ℕ
deriving DecidableEq

/-- Enumeration `wgpu::SurfaceError`: the error returned by `get_current_texture`. -/
inductive SurfaceError
  | Timeout | Outdated | Lost | OutOfMemory
deriving DecidableEq

/-- A surface frame acquired by `get_current_texture`, identified by a tag. -/
structure SurfaceFrame where
  id : ℕ

/-- Results the GPU surface would give to a first and to a (hypothetical)
second `get_current_texture` call during one `Chroma::render` invocation.
The embedding passes both so that the retry behaviour claimed by the spec is
expressible; the code consults only the first. -/
structure RenderEnv where
  acquire_first : Except SurfaceError SurfaceFrame
  acquire_second : Except SurfaceError SurfaceFrame

end Chroma

/-- Mutable state of `Chroma` (lib.rs lines 74-95), restricted to the fields
the claims are about. GPU handles (device, queue, pipelines, buffers, bind
groups) carry no observable state beyond what is modelled: `instance_buffer`
keeps the float contents last uploaded to the wgpu instance buffer. -/
structure Chroma where
  window_size : ℕ × ℕ
  config : Chroma.SurfaceConfiguration
  clip_rect : ℕ × ℕ × ℕ × ℕ
  instances : List Chroma.Instance
  instance_buffer : List (List ℚ)
  update_instance : Bool
deriving DecidableEq

/-- Method `Chroma::resize` (lib.rs lines 167-172): when both components of the new
size are positive it stores the new size in `window_size` and calls
`self.surface.configure(&self.device, &self.config)` with the UNCHANGED
`config`; otherwise it does nothing. The returned boolean records whether
`surface.configure` was called (the only external effect of the method). -/
def Chroma.resize (s : Chroma) (new_size : ℕ × ℕ) : Chroma × Bool :=
  if 0 < new_size.1 ∧ 0 < new_size.2 then
    ({ s with window_size := new_size }, true)
  else
    (s, false)

/-- Method `Chroma::configure_instances` (lib.rs lines 545-555): re-uploads
`instances` (via `Instance::to_raw`) into the instance buffer and clears the
`update_instance` flag. -/
def Chroma.configure_instances (s : Chroma) : Chroma :=
  { s with
    instance_buffer := s.instances.map Chroma.Instance.to_raw,
    update_instance := false }

/-- Method `Chroma::render` (lib.rs lines 174-243): runs `configure_instances` when
the update flag is set, records the first render pass, then calls
`self.surface.get_current_texture()?` ONCE (line 214) — an acquisition error
is propagated immediately by the `?` operator. On success the upscale pass is
recorded, commands are submitted and the acquired frame is presented (returned
here). -/
def Chroma.render (s : Chroma) (env : Chroma.RenderEnv) :
    Chroma × Except Chroma.SurfaceError Chroma.SurfaceFrame :=
  let s1 := if s.update_instance then s.configure_instances else s
  match env.acquire_first with
  | .error e => (s1, .error e)
  | .ok frame => (s1, .ok frame)

/-- Method `Chroma::add_tile` (lib.rs lines 557-571): appends an instance whose
position is `(x * 2 / SCREEN_WIDTH, y * 2 / SCREEN_HEIGHT)` and whose UV
offset is `(index / SPRITE_COUNT, 0)`, and sets the update flag. -/
def Chroma.add_tile (s : Chroma) (position : ℚ × ℚ) (index : ℕ) : Chroma :=
  { s with
    instances := s.instances ++
      [{ position :=
           (position.1 * 2 / (Chroma.SCREEN_WIDTH : ℚ),
            position.2 * 2 / (Chroma.SCREEN_HEIGHT : ℚ)),
         uv_offset := ((index : ℚ) / (Chroma.SPRITE_COUNT : ℚ), 0) }],
    update_instance := true }

/-- Method `Chroma::move_tile` (lib.rs lines 573-579): overwrites the position of
`instances[index]` and sets the update flag. The Rust indexing panics when
`index` is out of bounds; the panic is the `none` branch. -/
def Chroma.move_tile (s : Chroma) (position : ℚ × ℚ) (index : ℕ) : Option Chroma :=
  if index < s.instances.length then
    some { s with
      instances := s.instances.set index
        { position :=
            (position.1 * 2 / (Chroma.SCREEN_WIDTH : ℚ),
             position.2 * 2 / (Chroma.SCREEN_HEIGHT : ℚ)),
          uv_offset := (s.instances.getD index default).uv_offset },
      update_instance := true }
  else
    none

example :
    Chroma.ScalingMatrix.new 20 20 80 80 =
      some ⟨[1, 0, 0, 0, 0, 1, 0, 0, 0, 0, 1, 0, 0, 0, 0, 1], (0, 0, 80, 80)⟩ := by
  simp [Chroma.ScalingMatrix.new, Chroma.scaleOf, Chroma.clampF, Chroma.castU32,
    Chroma.truncQ, Chroma.fractQ]
  norm_num
  decide

example :
    (Chroma.ScalingMatrix.new 256 224 1024 1000).map Chroma.ScalingMatrix.clip_rect =
      some (0, 52, 1024, 896) := by
  simp [Chroma.ScalingMatrix.new, Chroma.scaleOf, Chroma.clampF, Chroma.castU32,
    Chroma.truncQ, Chroma.fractQ]
  norm_num
  decide

example :
    (Chroma.ScalingMatrix.new 20 20 50 100).map Chroma.ScalingMatrix.clip_rect =
      some (5, 30, 40, 40) := by
  simp [Chroma.ScalingMatrix.new, Chroma.scaleOf, Chroma.clampF, Chroma.castU32,
    Chroma.truncQ, Chroma.fractQ]
  norm_num
  decide

/-- A concrete construction-time state: surface 800 by 600, no tiles yet. -/
def sampleChroma : Chroma :=
  { window_size := (800, 600)
    config := ⟨800, 600⟩
    clip_rect := (0, 0, 800, 600)
    instances := []
    instance_buffer := []
    update_instance := false }

/-- The sample state after one tile has been added at the origin. -/
def sampleTileChroma : Chroma :=
  { sampleChroma with instances := [{ position := (0, 0), uv_offset := (0, 0) }] }

namespace Chroma

/-- truncQ agrees with the floor on nonnegative rationals. -/
theorem truncQ_eq_floor {q : ℚ} (h : 0 ≤ q) : truncQ q = ⌊q⌋ :=
  if_pos h

/-- castU32 never exceeds a natural bound on its argument. -/
theorem castU32_le {q : ℚ} {n : ℕ} (h : q ≤ n) : castU32 q ≤ n := by
  unfold castU32
  refine le_trans (min_le_left _ _) ?_
  rcases le_or_lt 0 q with h0 | h0
  · rw [truncQ_eq_floor h0]
    have hf : ⌊q⌋ ≤ (n : ℤ) := by
      have := Int.floor_le_floor h
      simpa using this
    omega
  · unfold truncQ
    rw [if_neg (not_le.mpr h0)]
    have hc : ⌈q⌉ ≤ (0 : ℤ) := Int.ceil_le.mpr (by exact_mod_cast h0.le)
    omega

/-- castU32 is the floor on nonnegative rationals below the u32 bound. -/
theorem castU32_eq_floor {q : ℚ} (h0 : 0 ≤ q) (h32 : q < 2 ^ 32) :
    castU32 q = ⌊q⌋.toNat := by
  unfold castU32
  rw [truncQ_eq_floor h0]
  refine min_eq_left ?_
  have hf : ⌊q⌋ < (2 ^ 32 : ℤ) := by
    refine Int.floor_lt.mpr ?_
    exact_mod_cast h32
  omega

/-- The clamp step of ScalingMatrix.new never yields a scale below one. -/
theorem one_le_of_scaleOf {tw th sw sh sc : ℚ}
    (h : scaleOf tw th sw sh = some sc) : 1 ≤ sc := by
  simp only [scaleOf, clampF] at h
  by_cases hc : (1 : ℚ) ≤ sh / th
  · rw [if_pos hc] at h
    simp only [Option.map_some'] at h
    obtain rfl : ((⌊ite (sw / tw < 1) 1 (ite (sh / th < sw / tw) (sh / th) (sw / tw))⌋ : ℤ) : ℚ) = sc := by
      exact Option.some.inj h
    have hv : 1 ≤ ite (sw / tw < 1) 1 (ite (sh / th < sw / tw) (sh / th) (sw / tw)) := by
      by_cases h1 : sw / tw < 1
      · rw [if_pos h1]
      · rw [if_neg h1]
        by_cases h2 : sh / th < sw / tw
        · rw [if_pos h2]; exact hc
        · rw [if_neg h2]; exact not_lt.mp h1
    have hfl : (1 : ℤ) ≤ ⌊ite (sw / tw < 1) 1 (ite (sh / th < sw / tw) (sh / th) (sw / tw))⌋ := by
      exact Int.le_floor.mpr (by exact_mod_cast hv)
    exact_mod_cast hfl
  · rw [if_neg hc] at h
    simp at h

/-- Unfolding of ScalingMatrix.new once the clamp has succeeded. -/
theorem new_eq_of_scaleOf {tw th sw sh sc : ℚ}
    (h : scaleOf tw th sw sh = some sc) :
    ScalingMatrix.new tw th sw sh =
      some ⟨[sc * tw / sw, 0, 0, 0,
             0, sc * th / sh, 0, 0,
             0, 0, 1, 0,
             fractQ (sw / 2) / sw, fractQ (sh / 2) / sh, 0, 1],
            (castU32 ((sw - min (sc * tw) sw) / 2),
             castU32 ((sh - min (sc * th) sh) / 2),
             castU32 (min (sc * tw) sw),
             castU32 (min (sc * th) sh))⟩ := by
  unfold ScalingMatrix.new
  rw [h]
  rfl

end Chroma

/-- C1 counterexample: at logical size 10 by 10 and surface 20 by 5 the height
ratio is one half, strictly below one; Rust `f32::clamp` asserts
`min <= max`, so `width_ratio.clamp(1.0, height_ratio)` panics (the `none`
branch) — no ScalingMatrix with scale 1.0 is returned, contrary to the claim. -/
theorem scalingMatrix_new_height_shrink_panics_cex :
    (5 : ℚ) / 10 < 1 ∧ Chroma.ScalingMatrix.new 10 10 20 5 = none := by
  constructor
  · norm_num
  · simp [Chroma.ScalingMatrix.new, Chroma.scaleOf, Chroma.clampF]
    norm_num

/-- C1 (amended): for every input with positive components where
`height_ratio = surface.height / logical.height` is strictly below one, the
`clamp(1.0, height_ratio)` call has `min > max`, so `ScalingMatrix::new`
panics (the `none` branch of the embedding); it does not return a result with
scale 1.0. -/
theorem scalingMatrix_new_eq_none_of_height_ratio_lt_one
    (tw th sw sh : ℚ) (_htw : 0 < tw) (_hth : 0 < th) (_hsw : 0 < sw) (_hsh : 0 < sh)
    (h : sh / th < 1) : Chroma.ScalingMatrix.new tw th sw sh = none := by
  have hn : ¬ (1 : ℚ) ≤ sh / th := not_le.mpr h
  simp [Chroma.ScalingMatrix.new, Chroma.scaleOf, Chroma.clampF, hn]

/-- C1 witness: the amended statement evaluated at logical 10 by 10 and
surface 20 by 5. -/
theorem scalingMatrix_new_eq_none_of_height_ratio_lt_one_witness :
    (0 : ℚ) < 10 ∧ (0 : ℚ) < 20 ∧ (0 : ℚ) < 5 ∧ (5 : ℚ) / 10 < 1 ∧
      Chroma.ScalingMatrix.new 10 10 20 5 = none :=
  ⟨by norm_num, by norm_num, by norm_num, by norm_num,
    scalingMatrix_new_eq_none_of_height_ratio_lt_one 10 10 20 5 (by norm_num)
      (by norm_num) (by norm_num) (by norm_num) (by norm_num)⟩

/-- C2 counterexample: a render call whose first frame acquisition fails and
whose second acquisition would succeed still returns the first error — the
code of `Chroma::render` (lib.rs line 214) propagates the first failure with
the question-mark operator and never retries, contrary to the claimed
retry-once behaviour. -/
theorem render_no_retry_cex :
    (Chroma.render sampleChroma
        { acquire_first := .error .Lost, acquire_second := .ok ⟨0⟩ }).2 =
      .error Chroma.SurfaceError.Lost ∧
    ({ acquire_first := .error .Lost, acquire_second := .ok ⟨0⟩ } :
        Chroma.RenderEnv).acquire_second = .ok ⟨0⟩ :=
  ⟨rfl, rfl⟩

/-- C2 (amended): `Chroma::render` attempts frame acquisition exactly once;
any acquisition failure is immediately escalated to the caller as the render
result, with no retry. -/
theorem render_propagates_first_acquire_error
    (s : Chroma) (env : Chroma.RenderEnv) (e : Chroma.SurfaceError)
    (h : env.acquire_first = .error e) :
    (Chroma.render s env).2 = .error e := by
  unfold Chroma.render
  rw [h]

/-- C2 witness: the amended statement evaluated at the sample state and a
lost-surface first acquisition. -/
theorem render_propagates_first_acquire_error_witness :
    (Chroma.render sampleChroma
        { acquire_first := .error .Outdated, acquire_second := .ok ⟨1⟩ }).2 =
      .error Chroma.SurfaceError.Outdated :=
  render_propagates_first_acquire_error sampleChroma
    { acquire_first := .error .Outdated, acquire_second := .ok ⟨1⟩ }
    Chroma.SurfaceError.Outdated rfl

/-- C9: a resize request with a zero width or zero height is a complete
no-op: the state (window size included) is returned unchanged and
`surface.configure` is not called. -/
theorem resize_zero_is_noop (s : Chroma) (n : ℕ × ℕ) (h : n.1 = 0 ∨ n.2 = 0) :
    Chroma.resize s n = (s, false) := by
  unfold Chroma.resize
  rcases h with h | h <;> rw [if_neg] <;> simp [h]

/-- C9 witness: resizing the sample state to width zero changes nothing. -/
theorem resize_zero_is_noop_witness :
    Chroma.resize sampleChroma (0, 600) = (sampleChroma, false) :=
  resize_zero_is_noop sampleChroma (0, 600) (Or.inl rfl)

/-- C3: evaluation at the failing input `Astc { block: B5x4, channel: Unorm }`.
The code (builder.rs line 279) returns `1.25 = (5 * 4) / 16` — texels per
block divided by block bytes — instead of the bytes-per-texel value
`16 / (5 * 4) = 0.8` that the claim (and the use of this function as a
bytes-per-texel factor in the buffer-size computation, builder.rs line 184)
requires; every explicitly listed ASTC arm is the reciprocal of the claimed
value, while the 8-byte 4x4 block formats (builder.rs line 274) do return the
claimed `8 / (4 * 4) = 0.5`. -/
theorem texture_format_size_astc_is_reciprocal :
    Chroma.texture_format_size (.Astc .B5x4 .Unorm) = 5 * 4 / 16 ∧
    Chroma.texture_format_size (.Astc .B5x4 .Unorm) ≠ 16 / (5 * 4) ∧
    Chroma.texture_format_size (.Bc1RgbaUnorm) = 8 / (4 * 4) := by
  refine ⟨?_, ?_, ?_⟩
  · show (1.25 : ℚ) = 5 * 4 / 16
    norm_num
  · show (1.25 : ℚ) ≠ 16 / (5 * 4)
    norm_num
  · show (0.5 : ℚ) = 8 / (4 * 4)
    norm_num

/-- C4: evaluation of `Chroma::resize` at a concrete failing input. Resizing
the sample state (surface configuration 800 by 600) to 1024 by 768 stores the
new window size and calls `surface.configure`, but the configuration passed
to it still holds the old 800 by 600 dimensions and the clip rectangle (and
hence the upscale transform) is not recomputed — the claimed invariant is not
preserved. -/
theorem resize_leaves_config_and_clip_stale :
    (Chroma.resize sampleChroma (1024, 768)).1.window_size = (1024, 768) ∧
    (Chroma.resize sampleChroma (1024, 768)).2 = true ∧
    (Chroma.resize sampleChroma (1024, 768)).1.config = ⟨800, 600⟩ ∧
    (Chroma.resize sampleChroma (1024, 768)).1.config ≠ ⟨1024, 768⟩ ∧
    (Chroma.resize sampleChroma (1024, 768)).1.clip_rect = sampleChroma.clip_rect := by
  refine ⟨rfl, rfl, rfl, ?_, rfl⟩
  decide

/-- C5: evaluation of the pixel-buffer length at the failing input
`width = height = 256` with the default `Rgba8UnormSrgb` format. The `u16`
product `width * height` (builder.rs line 184) overflows: a release build
wraps it to `0`, so the allocated buffer has length `0` instead of the
claimed `4 * 256 * 256 = 262144` bytes (a debug build panics outright). -/
theorem pixels_buffer_size_overflows_cex :
    Chroma.pixels_buffer_size 256 256 .Rgba8UnormSrgb = 0 ∧
    4 * 256 * 256 = 262144 ∧
    Chroma.pixels_buffer_size 128 112 .Rgba8UnormSrgb = 4 * 128 * 112 := by
  refine ⟨?_, by norm_num, ?_⟩
  · show Chroma.castUsize ((((256 * 256) % 2 ^ 16 : ℕ) : ℚ) * 4) = 0
    norm_num [Chroma.castUsize, Chroma.truncQ]
  · show Chroma.castUsize ((((128 * 112) % 2 ^ 16 : ℕ) : ℚ) * 4) = 4 * 128 * 112
    norm_num [Chroma.castUsize, Chroma.truncQ]
    decide

/-- castU32 of the rational zero is zero. -/
theorem Chroma.castU32_zero : Chroma.castU32 0 = 0 := by
  simp [Chroma.castU32, Chroma.truncQ]

/-- castU32 is the identity on naturals below the u32 bound. -/
theorem Chroma.castU32_natCast {n : ℕ} (h : n < 2 ^ 32) :
    Chroma.castU32 (n : ℚ) = n := by
  rw [Chroma.castU32_eq_floor (Nat.cast_nonneg n) (by exact_mod_cast h)]
  simp

/-- C6: for positive inputs in the u32 range on which `ScalingMatrix::new` is
defined, the clip rectangle fits inside the surface and its offset is the
floored centering offset: `x = floor((surface.width - min(scaled_width,
surface.width)) / 2)` and symmetrically for `y`, where `scaled_width` is the
scale returned by the clamp-and-floor step times the logical width. -/
theorem clip_rect_bounded_and_centered
    (tw th sw sh : ℕ) (_htw : 0 < tw) (_hth : 0 < th) (_hsw : 0 < sw) (_hsh : 0 < sh)
    (hsw32 : sw < 2 ^ 32) (hsh32 : sh < 2 ^ 32)
    (sc : ℚ) (m : Chroma.ScalingMatrix)
    (hsc : Chroma.scaleOf tw th sw sh = some sc)
    (hm : Chroma.ScalingMatrix.new tw th sw sh = some m) :
    m.clip_rect.2.2.1 ≤ sw ∧ m.clip_rect.2.2.2 ≤ sh ∧
    m.clip_rect.1 = (⌊((sw : ℚ) - min (sc * tw) sw) / 2⌋).toNat ∧
    m.clip_rect.2.1 = (⌊((sh : ℚ) - min (sc * th) sh) / 2⌋).toNat := by
  have h1 : (1 : ℚ) ≤ sc := Chroma.one_le_of_scaleOf hsc
  have hsc0 : (0 : ℚ) ≤ sc := le_trans zero_le_one h1
  rw [Chroma.new_eq_of_scaleOf hsc] at hm
  obtain rfl := Option.some.inj hm
  have hcw0 : (0 : ℚ) ≤ min (sc * tw) sw :=
    le_min (mul_nonneg hsc0 (Nat.cast_nonneg tw)) (Nat.cast_nonneg sw)
  have hch0 : (0 : ℚ) ≤ min (sc * th) sh :=
    le_min (mul_nonneg hsc0 (Nat.cast_nonneg th)) (Nat.cast_nonneg sh)
  have hcwle : min (sc * tw) ((sw : ℕ) : ℚ) ≤ (sw : ℚ) := min_le_right _ _
  have hchle : min (sc * th) ((sh : ℕ) : ℚ) ≤ (sh : ℚ) := min_le_right _ _
  have hsw32q : ((sw : ℕ) : ℚ) < 2 ^ 32 := by exact_mod_cast hsw32
  have hsh32q : ((sh : ℕ) : ℚ) < 2 ^ 32 := by exact_mod_cast hsh32
  refine ⟨Chroma.castU32_le hcwle, Chroma.castU32_le hchle, ?_, ?_⟩
  · exact Chroma.castU32_eq_floor (by linarith) (by linarith)
  · exact Chroma.castU32_eq_floor (by linarith) (by linarith)

/-- C6 witness: the spec scenario logical 20 by 20, surface 50 by 100, where
the clamp succeeds with scale 2 and the clip rectangle is the centered
40 by 40 square. -/
theorem clip_rect_bounded_and_centered_witness :
    ∃ m, Chroma.ScalingMatrix.new ((20 : ℕ) : ℚ) ((20 : ℕ) : ℚ) ((50 : ℕ) : ℚ) ((100 : ℕ) : ℚ) =
        some m ∧
      m.clip_rect.2.2.1 ≤ 50 ∧ m.clip_rect.2.2.2 ≤ 100 ∧
      m.clip_rect.1 = (⌊(((50 : ℕ) : ℚ) - min ((2 : ℚ) * ((20 : ℕ) : ℚ)) ((50 : ℕ) : ℚ)) / 2⌋).toNat ∧
      m.clip_rect.2.1 = (⌊(((100 : ℕ) : ℚ) - min ((2 : ℚ) * ((20 : ℕ) : ℚ)) ((100 : ℕ) : ℚ)) / 2⌋).toNat := by
  have hsc : Chroma.scaleOf ((20 : ℕ) : ℚ) ((20 : ℕ) : ℚ) ((50 : ℕ) : ℚ) ((100 : ℕ) : ℚ) =
      some 2 := by
    simp [Chroma.scaleOf, Chroma.clampF]
    norm_num
  have hm := Chroma.new_eq_of_scaleOf hsc
  exact ⟨_, hm,
    clip_rect_bounded_and_centered 20 20 50 100 (by decide) (by decide) (by decide)
      (by decide) (by decide) (by decide) 2 _ hsc hm⟩

/-- C7: when the surface is an exact integer multiple `k ≥ 1` of the logical
size in both dimensions (within the u32 range), the clamp-and-floor step
yields exactly `k` and the clip rectangle is the whole surface
`(0, 0, surface.width, surface.height)` — no letterboxing. -/
theorem integer_scale_exact_fill
    (tw th k : ℕ) (htw : 0 < tw) (hth : 0 < th) (hk : 1 ≤ k)
    (hsw32 : k * tw < 2 ^ 32) (hsh32 : k * th < 2 ^ 32) :
    Chroma.scaleOf tw th ((k : ℚ) * tw) ((k : ℚ) * th) = some (k : ℚ) ∧
    ∃ m, Chroma.ScalingMatrix.new tw th ((k : ℚ) * tw) ((k : ℚ) * th) = some m ∧
      m.clip_rect = (0, 0, k * tw, k * th) := by
  have htw0 : ((tw : ℕ) : ℚ) ≠ 0 := Nat.cast_ne_zero.mpr htw.ne'
  have hth0 : ((th : ℕ) : ℚ) ≠ 0 := Nat.cast_ne_zero.mpr hth.ne'
  have hk1 : (1 : ℚ) ≤ ((k : ℕ) : ℚ) := by exact_mod_cast hk
  have hwr : ((k : ℚ) * tw) / ((tw : ℕ) : ℚ) = ((k : ℕ) : ℚ) := by
    field_simp
  have hhr : ((k : ℚ) * th) / ((th : ℕ) : ℚ) = ((k : ℕ) : ℚ) := by
    field_simp
  have hsc : Chroma.scaleOf tw th ((k : ℚ) * tw) ((k : ℚ) * th) = some ((k : ℕ) : ℚ) := by
    simp only [Chroma.scaleOf, Chroma.clampF, hwr, hhr]
    rw [if_pos hk1, if_neg (not_lt.mpr hk1), if_neg (lt_irrefl _)]
    simp
  refine ⟨hsc, ?_⟩
  have hm := Chroma.new_eq_of_scaleOf hsc
  refine ⟨_, hm, ?_⟩
  have hcw : ((k : ℚ) * tw) = ((k * tw : ℕ) : ℚ) := by push_cast; ring
  have hch : ((k : ℚ) * th) = ((k * th : ℕ) : ℚ) := by push_cast; ring
  show (Chroma.castU32 _, Chroma.castU32 _, Chroma.castU32 _, Chroma.castU32 _) =
    (0, 0, k * tw, k * th)
  rw [min_self, min_self, sub_self, sub_self, zero_div, Chroma.castU32_zero, hcw, hch,
    Chroma.castU32_natCast hsw32, Chroma.castU32_natCast hsh32]

/-- C7 witness: the spec scenario logical 20 by 20 and surface 80 by 80,
an exact 4-times fill. -/
theorem integer_scale_exact_fill_witness :
    Chroma.scaleOf ((20 : ℕ) : ℚ) ((20 : ℕ) : ℚ) (((4 : ℕ) : ℚ) * ((20 : ℕ) : ℚ))
        (((4 : ℕ) : ℚ) * ((20 : ℕ) : ℚ)) = some ((4 : ℕ) : ℚ) ∧
    ∃ m, Chroma.ScalingMatrix.new ((20 : ℕ) : ℚ) ((20 : ℕ) : ℚ) (((4 : ℕ) : ℚ) * ((20 : ℕ) : ℚ))
        (((4 : ℕ) : ℚ) * ((20 : ℕ) : ℚ)) = some m ∧
      m.clip_rect = (0, 0, 4 * 20, 4 * 20) :=
  integer_scale_exact_fill 20 20 4 (by decide) (by decide) (by decide) (by decide) (by decide)

/-- C8: for every positive input on which `ScalingMatrix::new` is defined,
its transform is the 16-float array with diagonal `(sw, sh, 1, 1)` for
`sw = scale * logical.width / surface.width` and
`sh = scale * logical.height / surface.height`, translation
`tx = fract(surface.width / 2) / surface.width`,
`ty = fract(surface.height / 2) / surface.height` in the last row (positions
12 and 13 of the column-major array, i.e. the fourth column under the
column-vector convention), and zeros elsewhere off the diagonal. -/
theorem transform_diag_and_translation
    (tw th sw sh : ℚ) (_htw : 0 < tw) (_hth : 0 < th) (_hsw : 0 < sw) (_hsh : 0 < sh)
    (sc : ℚ) (m : Chroma.ScalingMatrix)
    (hsc : Chroma.scaleOf tw th sw sh = some sc)
    (hm : Chroma.ScalingMatrix.new tw th sw sh = some m) :
    m.transform =
      [sc * tw / sw, 0, 0, 0,
       0, sc * th / sh, 0, 0,
       0, 0, 1, 0,
       Chroma.fractQ (sw / 2) / sw, Chroma.fractQ (sh / 2) / sh, 0, 1] := by
  rw [Chroma.new_eq_of_scaleOf hsc] at hm
  obtain rfl := Option.some.inj hm
  rfl

/-- C8 witness: the spec scenario logical 256 by 224, surface 1024 by 1000,
where the clamp succeeds with scale 4. -/
theorem transform_diag_and_translation_witness :
    ∃ m, Chroma.ScalingMatrix.new 256 224 1024 1000 = some m ∧
      m.transform =
        [(4 : ℚ) * 256 / 1024, 0, 0, 0,
         0, (4 : ℚ) * 224 / 1000, 0, 0,
         0, 0, 1, 0,
         Chroma.fractQ (1024 / 2) / 1024, Chroma.fractQ (1000 / 2) / 1000, 0, 1] := by
  have hsc : Chroma.scaleOf 256 224 1024 1000 = some 4 := by
    simp [Chroma.scaleOf, Chroma.clampF]
    norm_num
  have hm := Chroma.new_eq_of_scaleOf hsc
  exact ⟨_, hm,
    transform_diag_and_translation 256 224 1024 1000 (by norm_num) (by norm_num)
      (by norm_num) (by norm_num) 4 _ hsc hm⟩

/-- C10: under the precondition `index < instances.length` the indexing in
`Chroma::move_tile` is in bounds and the call replaces exactly the position of
that tile (with the scaled position `(x * 2 / 128, y * 2 / 112)`, keeping its
UV offset) and sets the update flag, leaving every other field of the state
unchanged; for `index ≥ instances.length` the indexing panics (the `none`
branch of the embedding). -/
theorem move_tile_in_bounds_updates_only_that_tile
    (s : Chroma) (p : ℚ × ℚ) (index : ℕ) :
    (index < s.instances.length →
      Chroma.move_tile s p index = some { s with
        instances := s.instances.set index
          { position := (p.1 * 2 / 128, p.2 * 2 / 112),
            uv_offset := (s.instances.getD index default).uv_offset },
        update_instance := true }) ∧
    (s.instances.length ≤ index → Chroma.move_tile s p index = none) := by
  constructor
  · intro h
    simp [Chroma.move_tile, h, Chroma.SCREEN_WIDTH, Chroma.SCREEN_HEIGHT]
  · intro h
    simp [Chroma.move_tile, not_lt.mpr h]

/-- C10 witness: on the one-tile sample state, moving tile 0 succeeds and
rewrites only its position and the update flag, while moving tile 5 hits the
out-of-bounds branch. -/
theorem move_tile_in_bounds_updates_only_that_tile_witness :
    Chroma.move_tile sampleTileChroma (3, 4) 0 = some { sampleTileChroma with
      instances := [{ position := ((3 : ℚ) * 2 / 128, (4 : ℚ) * 2 / 112),
                      uv_offset := (0, 0) }],
      update_instance := true } ∧
    Chroma.move_tile sampleTileChroma (3, 4) 5 = none := by
  constructor
  · exact (move_tile_in_bounds_updates_only_that_tile sampleTileChroma (3, 4) 0).1 (by decide)
  · exact (move_tile_in_bounds_updates_only_that_tile sampleTileChroma (3, 4) 5).2 (by decide)
